import Mathlib

/-!
# Verification of the dmn-js `Modeler` core (src/lib/Modeler.js)

Shallow embedding of the two pieces of logic in `lib/Modeler.js`:

* the identifier registry attached to the moddle instance
  (`_createModdle`, `_collectIds`, and the `import.parse.complete` /
  `table.destroy` event handlers), and
* the table/diagram synchronization routine (`createDecisionDi` and the
  `view.switch` event handler).

External collaborators (the `ids` npm package internals, the element
factory, the DRD factory, the canvas and the event bus) are not part of the
sources; where a claim needs them they are modelled from the spec's
description of the corresponding capability, and each such definition says
so in its doc comment.
-/

set_option autoImplicit false

/-- The identifier registry (`moddle.ids`, an instance of the external `Ids`
class).  `seed` is the construction argument (`new Ids([ 32, 36, 1 ])` in
`_createModdle`); `claimed` is the map of claimed identifiers to the element
that owns them, a JS object keyed by identifier.  `claim id element` writes
`hats[id] = element` (overwriting any previous binding of `id`); `clear`
deletes every binding. -/
structure IdRegistry where
  seed : List Nat
  claimed : List (String × String)
deriving DecidableEq, Repr

/-- `ids.clear()`: remove every claimed identifier. -/
def IdRegistry.clear (r : IdRegistry) : IdRegistry :=
  { r with claimed := [] }

/-- `ids.claim(id, element)`: bind `id` to `element`, overwriting any
previous binding of the same identifier. -/
def IdRegistry.claim (r : IdRegistry) (id element : String) : IdRegistry :=
  { r with claimed := (id, element) :: r.claimed.filter (fun p => p.1 ≠ id) }

/-- The set of identifiers currently claimed in the registry. -/
def claimedIds (r : IdRegistry) : List String :=
  r.claimed.map Prod.fst

/-- `Modeler.prototype._collectIds(definitions, context)`: clear the
registry, then claim every `(id, element)` pair of `context.elementsById`
(iterated with `for id in context.elementsById`). -/
def collectIds (r : IdRegistry) (elementsById : List (String × String)) : IdRegistry :=
  elementsById.foldl (fun acc p => acc.claim p.1 p.2) r.clear

/-- The `import.parse.complete` event, shaped
`{ error?, definitions, context: { elementsById } }`.  Only the fields the
handler reads are modelled. -/
structure ParseCompleteEvent where
  error : Option String
  elementsById : List (String × String)
deriving DecidableEq, Repr

/-- The `import.parse.complete` handler registered in the `Modeler`
constructor: `if (!event.error) this._collectIds(event.definitions,
event.context)`. -/
def onParseComplete (r : IdRegistry) (e : ParseCompleteEvent) : IdRegistry :=
  if e.error.isNone then collectIds r e.elementsById else r

/-- The `table.destroy` handler registered in the `Modeler` constructor:
`this.moddle.ids.clear()`, unconditionally. -/
def onTableDestroy (r : IdRegistry) : IdRegistry :=
  r.clear

theorem claimedIds_clear (r : IdRegistry) : claimedIds r.clear = [] := rfl

theorem mem_claimedIds_claim (r : IdRegistry) (id id' element : String) :
    id ∈ claimedIds (r.claim id' element) ↔ id = id' ∨ id ∈ claimedIds r := by
  unfold claimedIds IdRegistry.claim
  simp only [List.map_cons, List.mem_cons, List.mem_map, List.mem_filter]
  constructor
  · rintro (h | ⟨p, ⟨hp, _⟩, rfl⟩)
    · exact Or.inl h
    · exact Or.inr ⟨p, hp, rfl⟩
  · rintro (h | ⟨p, hp, rfl⟩)
    · exact Or.inl h
    · by_cases hid : p.1 = id'
      · exact Or.inl hid
      · exact Or.inr ⟨p, ⟨hp, by simpa using hid⟩, rfl⟩

theorem mem_claimedIds_foldl (m : List (String × String)) (r : IdRegistry) (id : String) :
    id ∈ claimedIds (m.foldl (fun acc p => acc.claim p.1 p.2) r) ↔
      id ∈ m.map Prod.fst ∨ id ∈ claimedIds r := by
  induction m generalizing r with
  | nil => simp
  | cons hd tl ih =>
      simp only [List.foldl_cons, List.map_cons, List.mem_cons]
      rw [ih, mem_claimedIds_claim]
      tauto

/-- C3: for every parse-complete event whose error field is absent, after the
handler runs the registry's claimed set equals exactly the key set of the
parse context's `elementsById` index — no identifier from a previously loaded
document remains claimed, and no identifier of the current document is
missing. -/
theorem onParseComplete_success_claimed_eq_index (r : IdRegistry)
    (e : ParseCompleteEvent) (h : e.error = none) (id : String) :
    id ∈ claimedIds (onParseComplete r e) ↔ id ∈ e.elementsById.map Prod.fst := by
  unfold onParseComplete
  rw [h]
  simp only [Option.isNone_none, if_pos]
  unfold collectIds
  rw [mem_claimedIds_foldl]
  simp [claimedIds_clear]

/-- Witness for C3 at a concrete input: a registry holding a stale
identifier, a successful parse event indexing `x` and `y`. -/
theorem onParseComplete_success_claimed_eq_index_witness :
    ParseCompleteEvent.error
        { error := none, elementsById := [("x", "ex"), ("y", "ey")] } = none ∧
      ("stale" ∈ claimedIds (onParseComplete { seed := [32, 36, 1], claimed := [("stale", "old")] }
          { error := none, elementsById := [("x", "ex"), ("y", "ey")] }) ↔
        "stale" ∈ List.map Prod.fst
          (ParseCompleteEvent.elementsById
            { error := none, elementsById := [("x", "ex"), ("y", "ey")] })) :=
  ⟨rfl, onParseComplete_success_claimed_eq_index
    { seed := [32, 36, 1], claimed := [("stale", "old")] }
    { error := none, elementsById := [("x", "ex"), ("y", "ey")] } rfl "stale"⟩

/-- C4: for every parse-complete event whose error field is present, the
registry after the handler runs is identical to the registry before: no
re-collection, no clearing, no new claims. -/
theorem onParseComplete_error_leaves_registry (r : IdRegistry)
    (e : ParseCompleteEvent) (h : e.error.isSome = true) :
    onParseComplete r e = r := by
  unfold onParseComplete
  rcases e with ⟨err, m⟩
  cases err with
  | none => simp at h
  | some msg => rfl

/-- Witness for C4 at a concrete input: a registry holding exactly {A, B}
and a failed parse event. -/
theorem onParseComplete_error_leaves_registry_witness :
    (Option.isSome (ParseCompleteEvent.error
        { error := some "parse failed", elementsById := [("c", "ec")] }) = true) ∧
      onParseComplete { seed := [32, 36, 1], claimed := [("A", "ea"), ("B", "eb")] }
          { error := some "parse failed", elementsById := [("c", "ec")] } =
        { seed := [32, 36, 1], claimed := [("A", "ea"), ("B", "eb")] } :=
  ⟨rfl, onParseComplete_error_leaves_registry
    { seed := [32, 36, 1], claimed := [("A", "ea"), ("B", "eb")] }
    { error := some "parse failed", elementsById := [("c", "ec")] } rfl⟩

/-- C5: for every state of the registry's claimed set, including any
non-empty one, the `table.destroy` handler leaves an empty claimed set: it
clears the registry unconditionally. -/
theorem onTableDestroy_clears (r : IdRegistry) :
    claimedIds (onTableDestroy r) = [] := rfl

/-- Back-pointer targets for the `$parent` fields set by `createDecisionDi`
(everything happens within one decision, so a tag suffices). -/
inductive ParentRef where
  | decisionRef
  | extElementsRef
deriving DecidableEq, Repr

/-- A DI bounds record as produced by `drdFactory.createDiBounds({x, y,
width, height})`: a geometry record, with its `$parent` pointer. -/
structure DiBounds where
  x : Int
  y : Int
  width : Int
  height : Int
  parent : Option ParentRef
deriving DecidableEq, Repr

/-- The `extensionElements` container of a decision: its `$parent` pointer
and its `values` list, to which bounds records are pushed. -/
structure ExtElements where
  parent : Option ParentRef
  values : List DiBounds
deriving DecidableEq, Repr

/-- A `dmn:Decision` business object: its id and its (possibly absent)
`extensionElements` container.  `none` models the JS falsy
`decision.extensionElements` the guard `!decision.extensionElements`
tests. -/
structure Decision where
  id : String
  extensionElements : Option ExtElements
deriving DecidableEq, Repr

/-- A diagram shape: type, back-reference to the business object (by id),
position and size. -/
structure DiagramShape where
  type : String
  businessObject : String
  x : Int
  y : Int
  width : Int
  height : Int
deriving DecidableEq, Repr

/-- Modelled from the spec: `elementFactory` (service `elementFactory`,
not under src/) is the shape-factory capability
`createShape({type, businessObject}) -> DiagramShape`; the shape it returns
carries the factory's own initial position and the shape's natural size,
and does not touch the business object. -/
structure ElementFactory where
  initX : Int
  initY : Int
  natWidth : Int
  natHeight : Int
deriving DecidableEq, Repr

/-- Modelled from the spec: `elementFactory.createShape({ type: 'dmn:Decision',
businessObject: decision })`. -/
def createShape (f : ElementFactory) (type : String) (businessObject : String) : DiagramShape :=
  { type := type, businessObject := businessObject,
    x := f.initX, y := f.initY, width := f.natWidth, height := f.natHeight }

/-- Modelled from the spec: `drdFactory.createDiBounds({x, y, width, height})`
(service `drdFactory`, not under src/) returns a fresh bounds record with the
given geometry and no parent yet. -/
def createDiBounds (x y width height : Int) : DiBounds :=
  { x := x, y := y, width := width, height := height, parent := none }

/-- The observable steps of `createDecisionDi`, in source order, used to
state the ordering claim. -/
inductive SyncStep where
  | createShapeStep
  | assignPosStep
  | createDiBoundsStep
  | parentExtStep
  | parentBoundsStep
  | pushBoundsStep
  | addShapeStep
  | fireStep
deriving DecidableEq, Repr

/-- The outcome of running `createDecisionDi` (or the `view.switch` handler):
whether a TypeError was thrown, the decision's state afterwards, the shapes
and bounds records the factories created, the shapes inserted into the canvas
(`canvas.addShape`), the events fired on the event bus, and the trace of
steps that executed. -/
structure SyncOutcome where
  threw : Bool
  decision : Decision
  createdShapes : List DiagramShape
  createdBounds : List DiBounds
  canvasAdded : List DiagramShape
  firedEvents : List (String × DiagramShape × ExtElements)
  trace : List SyncStep
deriving DecidableEq, Repr

/-- `Modeler.prototype.createDecisionDi(decision)`, embedded step by step in
source order.  The source reads `decision.extensionElements.$parent = decision`
right after creating the shape and the bounds; when `extensionElements` is
absent this is a property write on `undefined` and throws a TypeError, so the
remaining statements (push, `canvas.addShape`, `eventBus.fire`) never run. -/
def createDecisionDi (f : ElementFactory) (decision : Decision) : SyncOutcome :=
  let shape0 := createShape f "dmn:Decision" decision.id
  let decisionShape := { shape0 with x := 200, y := 200 }
  let bounds := createDiBounds 200 200 decisionShape.width decisionShape.height
  match decision.extensionElements with
  | none =>
      { threw := true, decision := decision,
        createdShapes := [decisionShape], createdBounds := [bounds],
        canvasAdded := [], firedEvents := [],
        trace := [.createShapeStep, .assignPosStep, .createDiBoundsStep] }
  | some ext =>
      let ext1 : ExtElements := { ext with parent := some .decisionRef }
      let bounds1 : DiBounds := { bounds with parent := some .extElementsRef }
      let ext2 : ExtElements := { ext1 with values := ext1.values ++ [bounds1] }
      let decision1 : Decision := { decision with extensionElements := some ext2 }
      { threw := false, decision := decision1,
        createdShapes := [decisionShape], createdBounds := [bounds1],
        canvasAdded := [decisionShape],
        firedEvents := [("drdElement.added", decisionShape, ext2)],
        trace := [.createShapeStep, .assignPosStep, .createDiBoundsStep,
          .parentExtStep, .parentBoundsStep, .pushBoundsStep,
          .addShapeStep, .fireStep] }

/-- The `view.switch` event payload `{ decision, fromTable }`. -/
structure ViewSwitchContext where
  decision : Decision
  fromTable : Bool
deriving DecidableEq, Repr

/-- The outcome of a handler that did nothing: decision untouched, nothing
created, nothing added, nothing fired. -/
def noopOutcome (d : Decision) : SyncOutcome :=
  { threw := false, decision := d, createdShapes := [], createdBounds := [],
    canvasAdded := [], firedEvents := [], trace := [] }

/-- The `view.switch` handler registered in the `Modeler` constructor:
`if (context.fromTable && !decision.extensionElements)
   this.createDecisionDi(decision)`. -/
def onViewSwitch (f : ElementFactory) (ctx : ViewSwitchContext) : SyncOutcome :=
  if ctx.fromTable && ctx.decision.extensionElements.isNone then
    createDecisionDi f ctx.decision
  else noopOutcome ctx.decision

/-- `stepBefore a b t`: in trace `t`, if `b` occurs then `a` occurred, and
every occurrence of `a` is strictly before every occurrence of `b`. -/
def stepBefore (a b : SyncStep) (t : List SyncStep) : Prop :=
  (b ∈ t → a ∈ t) ∧
    ∀ i j : Fin t.length, t.get i = a → t.get j = b → (i : Nat) < (j : Nat)

instance (a b : SyncStep) (t : List SyncStep) : Decidable (stepBefore a b t) := by
  unfold stepBefore
  infer_instance

/-- C6: for every Decision that already owns an extension-elements container,
and for every view-switch event with `fromTable` false, the `view.switch`
handler is a pure no-op: the decision is not mutated, zero shapes are added
to the canvas, zero shapes and zero bounds records are created, and no
added-element notification is fired. -/
theorem onViewSwitch_noop (f : ElementFactory) (ctx : ViewSwitchContext)
    (h : ctx.decision.extensionElements.isSome = true ∨ ctx.fromTable = false) :
    (onViewSwitch f ctx).decision = ctx.decision ∧
      (onViewSwitch f ctx).canvasAdded = [] ∧
      (onViewSwitch f ctx).createdShapes = [] ∧
      (onViewSwitch f ctx).createdBounds = [] ∧
      (onViewSwitch f ctx).firedEvents = [] ∧
      (onViewSwitch f ctx).threw = false := by
  have hg : (ctx.fromTable && ctx.decision.extensionElements.isNone) = false := by
    cases ho : ctx.decision.extensionElements <;> cases hf : ctx.fromTable <;> simp_all
  simp [onViewSwitch, hg, noopOutcome]

/-- Witness for C6 at a concrete input: a decision that already owns an
extension-elements container, switched from the table view. -/
theorem onViewSwitch_noop_witness :
    (Option.isSome (Decision.extensionElements
          { id := "d1", extensionElements := some { parent := none, values := [] } }) = true ∨
        ViewSwitchContext.fromTable
          { decision := { id := "d1", extensionElements := some { parent := none, values := [] } },
            fromTable := true } = false) ∧
      ((onViewSwitch { initX := 1, initY := 2, natWidth := 180, natHeight := 80 }
          { decision := { id := "d1", extensionElements := some { parent := none, values := [] } },
            fromTable := true }).decision =
        { id := "d1", extensionElements := some { parent := none, values := [] } } ∧
      (onViewSwitch { initX := 1, initY := 2, natWidth := 180, natHeight := 80 }
          { decision := { id := "d1", extensionElements := some { parent := none, values := [] } },
            fromTable := true }).canvasAdded = [] ∧
      (onViewSwitch { initX := 1, initY := 2, natWidth := 180, natHeight := 80 }
          { decision := { id := "d1", extensionElements := some { parent := none, values := [] } },
            fromTable := true }).createdShapes = [] ∧
      (onViewSwitch { initX := 1, initY := 2, natWidth := 180, natHeight := 80 }
          { decision := { id := "d1", extensionElements := some { parent := none, values := [] } },
            fromTable := true }).createdBounds = [] ∧
      (onViewSwitch { initX := 1, initY := 2, natWidth := 180, natHeight := 80 }
          { decision := { id := "d1", extensionElements := some { parent := none, values := [] } },
            fromTable := true }).firedEvents = [] ∧
      (onViewSwitch { initX := 1, initY := 2, natWidth := 180, natHeight := 80 }
          { decision := { id := "d1", extensionElements := some { parent := none, values := [] } },
            fromTable := true }).threw = false) :=
  ⟨Or.inl rfl, onViewSwitch_noop
    { initX := 1, initY := 2, natWidth := 180, natHeight := 80 }
    { decision := { id := "d1", extensionElements := some { parent := none, values := [] } },
      fromTable := true } (Or.inl rfl)⟩

/-- C7: whenever `createDecisionDi` runs, the shape it builds is assigned
position exactly (200, 200) regardless of the factory's initial position and
of any prior state of the decision, and the DI bounds record it creates
carries the same position (200, 200) with the shape's own width and
height. -/
theorem createDecisionDi_position (f : ElementFactory) (d : Decision) :
    ∃ s b, (createDecisionDi f d).createdShapes = [s] ∧
      (createDecisionDi f d).createdBounds = [b] ∧
      s.x = 200 ∧ s.y = 200 ∧ b.x = 200 ∧ b.y = 200 ∧
      b.width = s.width ∧ b.height = s.height := by
  rcases d with ⟨id, ext⟩
  cases ext with
  | none => exact ⟨_, _, rfl, rfl, rfl, rfl, rfl, rfl, rfl, rfl⟩
  | some e => exact ⟨_, _, rfl, rfl, rfl, rfl, rfl, rfl, rfl, rfl⟩

theorem createDecisionDi_trace_none (f : ElementFactory) (id : String) :
    (createDecisionDi f { id := id, extensionElements := none }).trace =
      [.createShapeStep, .assignPosStep, .createDiBoundsStep] := rfl

theorem createDecisionDi_trace_some (f : ElementFactory) (id : String) (e : ExtElements) :
    (createDecisionDi f { id := id, extensionElements := some e }).trace =
      [.createShapeStep, .assignPosStep, .createDiBoundsStep,
        .parentExtStep, .parentBoundsStep, .pushBoundsStep,
        .addShapeStep, .fireStep] := rfl

/-- C8: in every execution of `createDecisionDi`, both parenting assignments
happen strictly before the bounds record is pushed onto the container's
value list, which happens strictly before the shape is inserted into the
canvas, which happens strictly before the added-element notification is
fired; and whenever the canvas-insertion step occurs, the resulting DI
structure is fully parented (container under the decision, a bounds record
under the container, the bounds in the value list). -/
theorem createDecisionDi_ordering (f : ElementFactory) (d : Decision) :
    stepBefore .parentExtStep .pushBoundsStep (createDecisionDi f d).trace ∧
      stepBefore .parentBoundsStep .pushBoundsStep (createDecisionDi f d).trace ∧
      stepBefore .pushBoundsStep .addShapeStep (createDecisionDi f d).trace ∧
      stepBefore .addShapeStep .fireStep (createDecisionDi f d).trace ∧
      (SyncStep.addShapeStep ∈ (createDecisionDi f d).trace →
        ∃ ext, (createDecisionDi f d).decision.extensionElements = some ext ∧
          ext.parent = some ParentRef.decisionRef ∧
          ∃ b, b ∈ ext.values ∧ b.parent = some ParentRef.extElementsRef) := by
  rcases d with ⟨id, ext⟩
  cases ext with
  | none =>
      simp only [createDecisionDi_trace_none]
      refine ⟨by decide, by decide, by decide, by decide, fun hmem => absurd hmem (by decide)⟩
  | some e =>
      simp only [createDecisionDi_trace_some]
      refine ⟨by decide, by decide, by decide, by decide, fun _ => ?_⟩
      exact ⟨_, rfl, rfl, _, List.mem_append_right _ (List.mem_singleton.mpr rfl), rfl⟩

/-- Witness for C8 at a concrete input (a decision owning a container, so the
canvas-insertion step actually occurs and the ordering is non-vacuous). -/
theorem createDecisionDi_ordering_witness :
    stepBefore .parentExtStep .pushBoundsStep
        (createDecisionDi { initX := 0, initY := 0, natWidth := 180, natHeight := 80 }
          { id := "dw", extensionElements := some { parent := none, values := [] } }).trace ∧
      stepBefore .parentBoundsStep .pushBoundsStep
        (createDecisionDi { initX := 0, initY := 0, natWidth := 180, natHeight := 80 }
          { id := "dw", extensionElements := some { parent := none, values := [] } }).trace ∧
      stepBefore .pushBoundsStep .addShapeStep
        (createDecisionDi { initX := 0, initY := 0, natWidth := 180, natHeight := 80 }
          { id := "dw", extensionElements := some { parent := none, values := [] } }).trace ∧
      stepBefore .addShapeStep .fireStep
        (createDecisionDi { initX := 0, initY := 0, natWidth := 180, natHeight := 80 }
          { id := "dw", extensionElements := some { parent := none, values := [] } }).trace ∧
      (SyncStep.addShapeStep ∈
          (createDecisionDi { initX := 0, initY := 0, natWidth := 180, natHeight := 80 }
            { id := "dw", extensionElements := some { parent := none, values := [] } }).trace →
        ∃ ext, (createDecisionDi { initX := 0, initY := 0, natWidth := 180, natHeight := 80 }
            { id := "dw", extensionElements := some { parent := none, values := [] } }).decision.extensionElements = some ext ∧
          ext.parent = some ParentRef.decisionRef ∧
          ∃ b, b ∈ ext.values ∧ b.parent = some ParentRef.extElementsRef) :=
  createDecisionDi_ordering { initX := 0, initY := 0, natWidth := 180, natHeight := 80 }
    { id := "dw", extensionElements := some { parent := none, values := [] } }

/-- C1 (code bug, evaluated at the failing input): for a decision with no
extension-elements container, a `view.switch` event with `fromTable` true
does NOT materialize the diagram: the handler reaches
`decision.extensionElements.$parent = decision` with `extensionElements`
undefined and throws a TypeError, so zero shapes reach the canvas, zero
bounds records are parented (the one the factory created is left orphaned),
no added-element notification fires, and the decision is left as it was. -/
theorem viewSwitch_materialize_throws :
    (onViewSwitch { initX := 0, initY := 0, natWidth := 180, natHeight := 80 }
        { decision := { id := "decision", extensionElements := none },
          fromTable := true }).threw = true ∧
      (onViewSwitch { initX := 0, initY := 0, natWidth := 180, natHeight := 80 }
        { decision := { id := "decision", extensionElements := none },
          fromTable := true }).canvasAdded = [] ∧
      (onViewSwitch { initX := 0, initY := 0, natWidth := 180, natHeight := 80 }
        { decision := { id := "decision", extensionElements := none },
          fromTable := true }).firedEvents = [] ∧
      (onViewSwitch { initX := 0, initY := 0, natWidth := 180, natHeight := 80 }
        { decision := { id := "decision", extensionElements := none },
          fromTable := true }).createdBounds =
        [{ x := 200, y := 200, width := 180, height := 80, parent := none }] ∧
      (onViewSwitch { initX := 0, initY := 0, natWidth := 180, natHeight := 80 }
        { decision := { id := "decision", extensionElements := none },
          fromTable := true }).decision =
        { id := "decision", extensionElements := none } :=
  ⟨rfl, rfl, rfl, rfl, rfl⟩

/-- C2 (code bug, evaluated at the failing input): the `view.switch` handler
does not always complete or no-op — delivering a view-switch with
`fromTable` true for a decision without extension-elements makes it throw a
TypeError (property write on undefined `decision.extensionElements`). -/
theorem viewSwitch_handler_throws :
    (onViewSwitch { initX := 5, initY := 7, natWidth := 100, natHeight := 60 }
        { decision := { id := "decision2", extensionElements := none },
          fromTable := true }).threw = true := rfl

/-- The moddle instance as far as this core observes it.
`Modeler.prototype._createModdle` first calls
`Viewer.prototype._createModdle` (not under src/; modelled from the spec as
an opaque base object) and then attaches `moddle.ids = new Ids([ 32, 36, 1 ])`. -/
structure Moddle where
  base : String
  ids : IdRegistry
deriving DecidableEq, Repr

/-- `new Ids(seed)`: a fresh registry with the given seed and nothing
claimed. -/
def newIds (seed : List Nat) : IdRegistry :=
  { seed := seed, claimed := [] }

/-- `Modeler.prototype._createModdle(options)`: the base moddle with
`ids = new Ids([ 32, 36, 1 ])` attached. -/
def createModdle (base : String) : Moddle :=
  { base := base, ids := newIds [32, 36, 1] }

/-- Modelled from the spec: the fresh-identifier generator of the external
`ids` package (`ids.next()`, not part of the sources) "produces an
identifier not present in the claimed set ... must never generate a value
already in the claimed set".  We model it as returning an identifier
strictly longer than every claimed identifier. -/
def IdRegistry.next (r : IdRegistry) : String :=
  String.mk (List.replicate ((r.claimed.map (fun p => p.1.length)).foldr Nat.max 0 + 1) 'a')

theorem le_foldr_max (l : List Nat) (x : Nat) (hx : x ∈ l) :
    x ≤ l.foldr Nat.max 0 := by
  induction l with
  | nil => cases hx
  | cons hd tl ih =>
      rcases List.mem_cons.mp hx with rfl | h
      · exact Nat.le_max_left _ _
      · exact Nat.le_trans (ih h) (Nat.le_max_right _ _)

theorem next_not_claimed (r : IdRegistry) : r.next ∉ claimedIds r := by
  intro hmem
  rcases List.mem_map.mp hmem with ⟨p, hp, hfst⟩
  have hlen : p.1.length ≤ (r.claimed.map (fun q => q.1.length)).foldr Nat.max 0 :=
    le_foldr_max _ _ (List.mem_map.mpr ⟨p, hp, rfl⟩)
  have hnext : (IdRegistry.next r).length =
      (r.claimed.map (fun q => q.1.length)).foldr Nat.max 0 + 1 := by
    have hmk : ∀ l : List Char, (String.mk l).length = l.length := fun _ => rfl
    unfold IdRegistry.next
    rw [hmk, List.length_replicate]
  rw [hfst] at hlen
  rw [hnext] at hlen
  exact Nat.not_succ_le_self _ hlen

/-- C9: the identifier registry attached by `_createModdle` to every moddle
instance is parameterized with the three-tier length scheme `[32, 36, 1]`
(long random core, fixed-position segment, minimal expansion suffix), and
fresh-identifier generation never produces an identifier already present in
the claimed set. -/
theorem createModdle_seed_and_fresh :
    (∀ base : String, (createModdle base).ids.seed = [32, 36, 1] ∧
      (createModdle base).ids.seed.length = 3 ∧
      (createModdle base).ids.claimed = []) ∧
    ∀ r : IdRegistry, r.next ∉ claimedIds r :=
  ⟨fun _ => ⟨rfl, rfl, rfl⟩, next_not_claimed⟩

/-- A JS option value, as far as the constructor's option handling observes
it: booleans, strings, numbers, or an opaque module/component reference. -/
inductive OptValue where
  | boolV : Bool → OptValue
  | strV : String → OptValue
  | numV : Int → OptValue
  | moduleV : String → OptValue
deriving DecidableEq, Repr

/-- A JS options object: its own enumerable properties, in insertion
order, keys unique as in any JS object. -/
abbrev JsOptions := List (String × OptValue)

/-- Property read `o[k]`. -/
def getOpt : JsOptions → String → Option OptValue
  | [], _ => none
  | p :: rest, k => if p.1 = k then some p.2 else getOpt rest k

/-- Property write `o[k] = v`: overwrite an existing key in place, else
append a new property. -/
def setOpt : JsOptions → String → OptValue → JsOptions
  | [], k, v => [(k, v)]
  | p :: rest, k, v => if p.1 = k then (k, v) :: rest else p :: setOpt rest k v

/-- `assign(target, source)` (lodash `assign`): copy each own property of
`source` onto `target`, in order. -/
def objAssign (target : JsOptions) : JsOptions → JsOptions
  | [] => target
  | p :: rest => objAssign (setOpt target p.1 p.2) rest

/-- The table modeler component (`require('./table/Modeler')`), an opaque
module value. -/
def tableModelerVal : OptValue :=
  .moduleV "TableModeler"

/-- The option processing at the top of the `Modeler` constructor:
`options = assign({ editingAllowed: true }, options); options.editor =
TableModeler;` — the resulting object handed to `Viewer.call(this,
options)`. -/
def modelerOptions (caller : JsOptions) : JsOptions :=
  setOpt (objAssign [("editingAllowed", .boolV true)] caller) "editor" tableModelerVal

theorem getOpt_setOpt_self (o : JsOptions) (k : String) (v : OptValue) :
    getOpt (setOpt o k v) k = some v := by
  induction o with
  | nil => simp [setOpt, getOpt]
  | cons p rest ih =>
      by_cases hp : p.1 = k
      · simp [setOpt, getOpt, hp]
      · simp [setOpt, getOpt, hp, ih]

theorem getOpt_setOpt_ne (o : JsOptions) (k k' : String) (v : OptValue)
    (h : k' ≠ k) : getOpt (setOpt o k v) k' = getOpt o k' := by
  have hk : ¬(k = k') := fun he => h he.symm
  induction o with
  | nil => simp [setOpt, getOpt, hk]
  | cons p rest ih =>
      obtain ⟨pk, pv⟩ := p
      by_cases hp : pk = k
      · subst hp
        simp [setOpt, getOpt, hk]
      · simp [setOpt, getOpt, hp, ih]

theorem getOpt_eq_none_of_not_mem (o : JsOptions) (k : String)
    (h : k ∉ o.map Prod.fst) : getOpt o k = none := by
  induction o with
  | nil => rfl
  | cons p rest ih =>
      obtain ⟨pk, pv⟩ := p
      simp only [List.map_cons, List.mem_cons] at h
      push_neg at h
      have hpk : ¬(pk = k) := fun he => h.1 he.symm
      simp [getOpt, hpk, ih h.2]

theorem getOpt_isSome_of_mem (o : JsOptions) (k : String)
    (h : k ∈ o.map Prod.fst) : (getOpt o k).isSome = true := by
  induction o with
  | nil => cases h
  | cons p rest ih =>
      by_cases hp : p.1 = k
      · simp [getOpt, hp]
      · simp only [List.map_cons, List.mem_cons] at h
        rcases h with h | h
        · exact absurd h.symm hp
        · simp [getOpt, hp, ih h]

theorem getOpt_objAssign_not_mem (t s : JsOptions) (k : String)
    (h : k ∉ s.map Prod.fst) : getOpt (objAssign t s) k = getOpt t k := by
  induction s generalizing t with
  | nil => rfl
  | cons p rest ih =>
      obtain ⟨pk, pv⟩ := p
      simp only [List.map_cons, List.mem_cons] at h
      push_neg at h
      simp only [objAssign]
      rw [ih _ h.2, getOpt_setOpt_ne _ _ _ _ h.1]

theorem getOpt_objAssign_mem (t s : JsOptions) (k : String)
    (hnd : (s.map Prod.fst).Nodup) (h : k ∈ s.map Prod.fst) :
    getOpt (objAssign t s) k = getOpt s k := by
  induction s generalizing t with
  | nil => cases h
  | cons p rest ih =>
      obtain ⟨pk, pv⟩ := p
      simp only [List.map_cons, List.nodup_cons] at hnd
      by_cases hp : pk = k
      · subst hp
        simp only [objAssign]
        rw [getOpt_objAssign_not_mem _ _ _ hnd.1, getOpt_setOpt_self]
        simp [getOpt]
      · simp only [List.map_cons, List.mem_cons] at h
        rcases h with h | h
        · exact absurd h.symm hp
        · simp only [objAssign]
          rw [ih _ hnd.2 h]
          simp [getOpt, hp]

/-- C10: for every caller options object (nodup keys, as any JS object;
the absent-options case is the empty object), the options handed to the
`Viewer` have `editingAllowed` defaulting to `true` when the caller did not
set it (a caller-supplied value is preserved), `editor` unconditionally set
to the table modeler component (overwriting any caller-supplied editor),
and every other caller-supplied field unchanged. -/
theorem modelerOptions_spec (caller : JsOptions)
    (hnd : (caller.map Prod.fst).Nodup) (k : String) :
    getOpt (modelerOptions caller) k =
      if k = "editor" then some tableModelerVal
      else if k = "editingAllowed" then
        some ((getOpt caller "editingAllowed").getD (OptValue.boolV true))
      else getOpt caller k := by
  unfold modelerOptions
  by_cases he : k = "editor"
  · subst he
    rw [getOpt_setOpt_self]
    simp
  · rw [getOpt_setOpt_ne _ _ _ _ he]
    by_cases hm : k ∈ caller.map Prod.fst
    · rw [getOpt_objAssign_mem _ _ _ hnd hm]
      by_cases hea : k = "editingAllowed"
      · subst hea
        rcases Option.isSome_iff_exists.mp (getOpt_isSome_of_mem _ _ hm) with ⟨v, hv⟩
        simp [he, hv]
      · simp [he, hea]
    · rw [getOpt_objAssign_not_mem _ _ _ hm]
      have hnone : getOpt caller k = none := getOpt_eq_none_of_not_mem _ _ hm
      by_cases hea : k = "editingAllowed"
      · subst hea
        simp [he, hnone, getOpt]
      · have hba : ¬("editingAllowed" = k) := fun hba => hea hba.symm
        simp [he, hea, hnone, getOpt, hba]

/-- Witness for C10 at a concrete input: a caller supplying its own
`editor`, an explicit `editingAllowed: false` and an unrelated field, read
back at the key `editor`. -/
theorem modelerOptions_spec_witness :
    (List.map Prod.fst
        ([("editor", OptValue.moduleV "custom"), ("editingAllowed", OptValue.boolV false),
          ("width", OptValue.numV 600)] : JsOptions)).Nodup ∧
      getOpt (modelerOptions
          [("editor", OptValue.moduleV "custom"), ("editingAllowed", OptValue.boolV false),
            ("width", OptValue.numV 600)]) "editor" =
        (if "editor" = "editor" then some tableModelerVal
          else if "editor" = "editingAllowed" then
            some ((getOpt
              [("editor", OptValue.moduleV "custom"), ("editingAllowed", OptValue.boolV false),
                ("width", OptValue.numV 600)] "editingAllowed").getD (OptValue.boolV true))
          else getOpt
            [("editor", OptValue.moduleV "custom"), ("editingAllowed", OptValue.boolV false),
              ("width", OptValue.numV 600)] "editor") :=
  ⟨by decide, modelerOptions_spec
    [("editor", OptValue.moduleV "custom"), ("editingAllowed", OptValue.boolV false),
      ("width", OptValue.numV 600)] (by decide) "editor"⟩
